import Mathlib

/-!
Verification development for the Google Maps review-collection tool
(`src/server.py`, single operation `get_reviews`).

The Python source is shallowly embedded: every browser-automation step that
can raise is represented by an `Except String` value supplied by an
environment `Env` (one field per fallible engine call, in program order),
and `get_reviews` becomes a pure function from the call arguments and that
environment to an `Outcome` recording the returned string (or the escaping
exception), whether navigation was attempted, and how many scroll-simulation
steps were issued.  The external emoji-stripping utility
(`emoji.replace_emoji(text, '')`) is an external collaborator; it is
modelled as an abstract predicate `isEmoji : Char → Bool` and character
filtering, threaded through the development as a parameter.
-/

set_option autoImplicit false

namespace GmapsReviews

/-- Whitespace class of Python's regex `\s` on `str` (ASCII whitespace plus
the Unicode space characters), used by `re.sub(r'\s+', ' ', text)`. -/
def pyIsSpace (c : Char) : Bool :=
  c = ' ' || c = '\t' || c = '\n' || c = '\r' || c.val = 0x0b || c.val = 0x0c ||
  (0x1c <= c.val && c.val <= 0x1f) || c.val = 0x85 || c.val = 0xa0 ||
  c.val = 0x1680 || (0x2000 <= c.val && c.val <= 0x200a) ||
  c.val = 0x2028 || c.val = 0x2029 || c.val = 0x202f || c.val = 0x205f ||
  c.val = 0x3000

/-- `re.sub(r'\s+', ' ', ·)` on a character list: every maximal run of
whitespace characters is replaced by a single space.  `prevSpace` records
whether the previous character belonged to a whitespace run whose single
replacement space has already been emitted. -/
def collapseWs (prevSpace : Bool) : List Char → List Char
  | [] => []
  | c :: cs =>
    if pyIsSpace c then
      if prevSpace then collapseWs true cs else ' ' :: collapseWs true cs
    else
      c :: collapseWs false cs

/-- `clean_text` from `server.py`: remove emoji code points
(`emoji.replace_emoji(text, '')`, modelled by filtering with the abstract
emoji predicate), then collapse whitespace runs to single spaces
(`re.sub(r'\s+', ' ', text)`). -/
def clean_text (isEmoji : Char → Bool) (s : String) : String :=
  String.mk (collapseWs false (s.data.filter (fun c => !isEmoji c)))

/-- ASCII letters and digits, the class kept by `re.sub(r'[^A-Za-z0-9]+', '', ·)`. -/
def isAsciiAlnum (c : Char) : Bool :=
  ('A' ≤ c && c ≤ 'Z') || ('a' ≤ c && c ≤ 'z') || ('0' ≤ c && c ≤ '9')

/-- `re.sub(r'[^A-Za-z0-9]+', '', place_name)`: every maximal run of
characters outside `[A-Za-z0-9]` is replaced by the empty string. -/
def removeNonAlnumRuns : List Char → List Char
  | [] => []
  | c :: cs =>
    if isAsciiAlnum c then c :: removeNonAlnumRuns cs else removeNonAlnumRuns cs

/-- `clean_place_name` from the export branch of `get_reviews`. -/
def clean_place_name (s : String) : String :=
  String.mk (removeNonAlnumRuns s.data)

/-- `output_file_name = f"{clean_place_name}_{datetime.now().strftime('%Y%m%d')}.xlsx"`;
the current date string is a parameter of the model. -/
def output_file_name (place_name today : String) : String :=
  clean_place_name place_name ++ "_" ++ today ++ ".xlsx"

/-- `full_output_dir = file_path + "/" + output_file_name`. -/
def full_output_dir (file_path place_name today : String) : String :=
  file_path ++ "/" ++ output_file_name place_name today

/-- Python list slicing `l[:n]` for an `int` bound `n`: a nonnegative bound
takes the first `n` elements; a negative bound drops the last `|n|`. -/
def pySlice {α : Type} (l : List α) (n : Int) : List α :=
  if 0 ≤ n then l.take n.toNat else l.take (l.length - (-n).toNat)

/-- `math.ceil(n / 10)` on an `int`, with `/` the true (rational) division. -/
def pyCeil10 (n : Int) : Int := ⌈(n : ℚ) / 10⌉

/-- Number of iterations of the scroll loop: `range(math.ceil(num_reviews/10) - 1)`
when `num_reviews > 10`, and the loop is not entered otherwise. -/
def scrollStepsFor (num_reviews : Int) : Nat :=
  if num_reviews > 10 then (pyCeil10 num_reviews - 1).toNat else 0

/-- Python truthiness test `not file_path` on the `file_path: str = None`
argument: `None` and the empty string are falsy. -/
def pyFalsy (x : Option String) : Bool :=
  match x with
  | none => true
  | some s => s.isEmpty

/-- Result of `review_locator.inner_text(timeout=1000)`: text, a
`TimeoutError` (the one exception the per-entry handler catches), or any
other exception. -/
inductive BodyRead where
  | ok (s : String)
  | timeout
  | err (e : String)
deriving DecidableEq

deriving instance DecidableEq for Except

/-- One rendered review container (`div[class*='jJc9Ad']`) together with the
outcomes of the four sub-element reads the loop body performs on it.
`Except.error e` models the read raising exception `e`. -/
structure Entry where
  reviewer : Except String String
  rating : Except String String
  date : Except String String
  body : BodyRead
deriving DecidableEq

/-- One dictionary appended to `reviews` in the extraction loop. -/
structure Record where
  placeName : String
  reviewer : String
  rating : String
  date : String
  review : String
deriving DecidableEq

/-- Environment of one invocation: the outcome of every fallible
browser-automation step, in program order.  `navResult` covers the pre-`try`
phase (`page.goto(url)` and the initial waits); `tabClick`, `sortClick` and
`menuClick` are the three control interactions inside the `try`; `entries`
are the mounted review containers found by the locator after scrolling;
`exportResult` is the outcome of `df.to_excel`; `today` is
`datetime.now().strftime("%Y%m%d")`. -/
structure Env where
  navResult : Except String Unit
  tabClick : Except String Unit
  sortClick : Except String Unit
  menuClick : Except String Unit
  entries : List Entry
  exportResult : Except String Unit
  today : String

/-- Arguments of the `get_reviews` tool. -/
structure Args where
  url : String
  place_name : String
  num_reviews : Int
  save_reviews : Bool
  file_path : Option String

/-- Body of the extraction loop for one container: the `reviewer`, `rating`
and `date` reads propagate any exception; the body read substitutes the
sentinel `'No review'` on `TimeoutError` only.  `clean_text` is applied to
the reviewer name and the review body, as in the source. -/
def extractEntry (isEmoji : Char → Bool) (place_name : String) (e : Entry) :
    Except String Record := do
  let reviewer ← e.reviewer
  let rating ← e.rating
  let date ← e.date
  let review_text ← match e.body with
    | .ok s => Except.ok s
    | .timeout => Except.ok "No review"
    | .err m => Except.error m
  Except.ok
    { placeName := place_name
      reviewer := clean_text isEmoji reviewer
      rating := rating
      date := date
      review := clean_text isEmoji review_text }

/-- The extraction loop over the (already sliced) container list: the first
exception aborts the whole loop, discarding all records. -/
def extractAll (isEmoji : Char → Bool) (place_name : String) :
    List Entry → Except String (List Record)
  | [] => Except.ok []
  | e :: es =>
    match extractEntry isEmoji place_name e with
    | .error m => Except.error m
    | .ok r =>
      match extractAll isEmoji place_name es with
      | .error m => Except.error m
      | .ok rs => Except.ok (r :: rs)

/-- Whether every sub-element read of an entry resolves without an
uncaught exception (a body-read timeout counts as resolving). -/
def entryResolves (e : Entry) : Bool :=
  e.reviewer.isOk && e.rating.isOk && e.date.isOk &&
    (match e.body with
     | .err _ => false
     | _ => true)

/-- The record an entry yields when all of its reads resolve. -/
def resolveEntry (isEmoji : Char → Bool) (place_name : String) (e : Entry) :
    Record :=
  { placeName := place_name
    reviewer := clean_text isEmoji (e.reviewer.toOption.getD "")
    rating := e.rating.toOption.getD ""
    date := e.date.toOption.getD ""
    review := clean_text isEmoji
      (match e.body with
       | .ok s => s
       | .timeout => "No review"
       | .err _ => "") }

/-- One review block of the output text:
`==REVIEW {i+1}==\nReviewer: ...\nDate: ...\nRating: ...\nReview: ...`. -/
def formatReview (i : Nat) (r : Record) : String :=
  "==REVIEW " ++ toString (i + 1) ++ "==\nReviewer: " ++ r.reviewer ++
  "\nDate: " ++ r.date ++ "\nRating: " ++ r.rating ++ "\nReview: " ++ r.review

/-- `full_text`: the review blocks joined by blank lines, in list order. -/
def fullText (recs : List Record) : String :=
  String.intercalate "\n\n" (recs.enum.map (fun p => formatReview p.1 p.2))

/-- `tool_message`: fixed summarization preamble followed by `full_text`. -/
def toolMessage (recs : List Record) : String :=
  "Summarize these collected reviews. The summarization should highlight both the positive and negative aspects of the place based on the review details:\n"
    ++ fullText recs

/-- The early-return guidance message for `save_reviews` without a directory. -/
def missingDirMessage : String :=
  "Could not execute this tool because of missing save directory for Excel file. Tell the user to specify the directory and do not try to add a path by yourself."

/-- The aggregate message produced by the top-level exception handler. -/
def unexpectedErrorMessage (e : String) : String :=
  "Unexpected error occurred when collecting the reviews: " ++ e

/-- Prefix of the return value on a successful export. -/
def exportSuccessMessage (dir : String) : String :=
  "You have successfully saved the reviews to " ++ dir ++ ".\n\n"

/-- Prefix of the return value when `df.to_excel` raises. -/
def exportErrorMessage (e : String) : String :=
  "You encountered an error when trying to save the reviews to an Excel file: "
    ++ e ++ ".\n\n"

/-- Observable outcome of one invocation: the string the operation returns
(`Except.error` when an exception escapes the operation), whether browser
automation was started (launch and navigation attempted), and how many
scroll-simulation steps (`page.mouse.wheel`) were issued. -/
structure Outcome where
  result : Except String String
  navigated : Bool
  scrollSteps : Nat
deriving DecidableEq

/-- Shallow embedding of `get_reviews`.  Control flow follows the source:
the missing-directory check precedes all automation; launch/goto and the
initial waits sit outside the `try`, so `navResult` errors escape; every
failure inside the `try` lands in `except Exception` and becomes the
aggregate message; the export `try` catches its own failures and still
returns `tool_message`. -/
def get_reviews (isEmoji : Char → Bool) (args : Args) (env : Env) : Outcome :=
  if args.save_reviews && pyFalsy args.file_path then
    { result := Except.ok missingDirMessage, navigated := false, scrollSteps := 0 }
  else
    match env.navResult with
    | .error e => { result := Except.error e, navigated := true, scrollSteps := 0 }
    | .ok _ =>
      match env.tabClick with
      | .error e =>
        { result := Except.ok (unexpectedErrorMessage e), navigated := true,
          scrollSteps := 0 }
      | .ok _ =>
        match env.sortClick with
        | .error e =>
          { result := Except.ok (unexpectedErrorMessage e), navigated := true,
            scrollSteps := 0 }
        | .ok _ =>
          match env.menuClick with
          | .error e =>
            { result := Except.ok (unexpectedErrorMessage e), navigated := true,
              scrollSteps := 0 }
          | .ok _ =>
            let steps := scrollStepsFor args.num_reviews
            match extractAll isEmoji args.place_name
                (pySlice env.entries args.num_reviews) with
            | .error e =>
              { result := Except.ok (unexpectedErrorMessage e),
                navigated := true, scrollSteps := steps }
            | .ok reviews =>
              let tool_message := toolMessage reviews
              if args.save_reviews then
                let dir := full_output_dir (args.file_path.getD "")
                  args.place_name env.today
                match env.exportResult with
                | .ok _ =>
                  { result := Except.ok (exportSuccessMessage dir ++ tool_message),
                    navigated := true, scrollSteps := steps }
                | .error e =>
                  { result := Except.ok (exportErrorMessage e ++ tool_message),
                    navigated := true, scrollSteps := steps }
              else
                { result := Except.ok tool_message, navigated := true,
                  scrollSteps := steps }

/-- A concrete instance of the abstract emoji predicate, covering the main
Unicode emoji blocks; used to instantiate theorems on concrete inputs. -/
def sampleIsEmoji (c : Char) : Bool :=
  0x1F300 ≤ c.val && c.val ≤ 0x1FAFF

/-- A fully-readable rendered review container. -/
def okEntry : Entry :=
  { reviewer := Except.ok "Alice", rating := Except.ok "5 stars",
    date := Except.ok "a week ago", body := BodyRead.ok "Great food" }

/-- A container whose body read times out (rating-only review). -/
def timeoutEntry : Entry :=
  { reviewer := Except.ok "Bob", rating := Except.ok "4 stars",
    date := Except.ok "2 days ago", body := BodyRead.timeout }

/-- A container whose reviewer-name read raises. -/
def badEntry : Entry :=
  { reviewer := Except.error "locator resolved to no element",
    rating := Except.ok "3 stars", date := Except.ok "a month ago",
    body := BodyRead.ok "fine" }

/-- Sample invocation arguments: default count, no export. -/
def sampleArgs : Args :=
  { url := "https://maps.google.com/place", place_name := "Cafe",
    num_reviews := 20, save_reviews := false, file_path := none }

/-- Sample invocation arguments requesting export to a directory. -/
def saveArgs : Args :=
  { sampleArgs with save_reviews := true, file_path := some "/home/user/out" }

/-- Environment in which every automation step succeeds. -/
def sampleEnvOk : Env :=
  { navResult := Except.ok (), tabClick := Except.ok (),
    sortClick := Except.ok (), menuClick := Except.ok (),
    entries := [okEntry, timeoutEntry], exportResult := Except.ok (),
    today := "20261012" }

/-- Environment in which `page.goto` raises. -/
def navFailEnv : Env :=
  { sampleEnvOk with navResult := Except.error "net::ERR_NAME_NOT_RESOLVED" }

/-- Environment in which `df.to_excel` raises. -/
def exportFailEnv : Env :=
  { sampleEnvOk with exportResult := Except.error "Permission denied" }

/-- Environment containing a container with a failing field read. -/
def badEntryEnv : Env :=
  { sampleEnvOk with entries := [okEntry, badEntry] }

end GmapsReviews


namespace GmapsReviews

theorem collapseWs_idem (l : List Char) :
    ∀ b, collapseWs b (collapseWs b l) = collapseWs b l := by
  induction l with
  | nil => intro b; rfl
  | cons c cs ih =>
    intro b
    by_cases hc : pyIsSpace c = true
    · cases b with
      | true =>
        simp only [collapseWs, hc, if_true]
        exact ih true
      | false =>
        have hsp : pyIsSpace ' ' = true := by decide
        simp only [collapseWs, hc, hsp, if_true, if_false]
        exact congrArg (' ' :: ·) (ih true)
    · rw [Bool.not_eq_true] at hc
      simp only [collapseWs, hc, Bool.false_eq_true, if_false]
      exact congrArg (c :: ·) (ih false)

theorem filter_collapseWs (isEmoji : Char → Bool) (hsp : isEmoji ' ' = false)
    (l : List Char) (h : ∀ c ∈ l, isEmoji c = false) :
    ∀ b, (collapseWs b l).filter (fun c => !isEmoji c) = collapseWs b l := by
  induction l with
  | nil => intro b; rfl
  | cons c cs ih =>
    intro b
    have hc' : isEmoji c = false := h c (List.mem_cons_self c cs)
    have hcs : ∀ x ∈ cs, isEmoji x = false :=
      fun x hx => h x (List.mem_cons_of_mem c hx)
    by_cases hc : pyIsSpace c = true
    · cases b with
      | true =>
        simp only [collapseWs, hc, if_true]
        exact ih hcs true
      | false =>
        simp only [collapseWs, hc, if_true, if_false, List.filter, hsp,
          Bool.not_false]
        exact congrArg (' ' :: ·) (ih hcs true)
    · rw [Bool.not_eq_true] at hc
      simp only [collapseWs, hc, Bool.false_eq_true, if_false, List.filter,
        hc', Bool.not_false]
      exact congrArg (c :: ·) (ih hcs false)

/-- Claim C7: the text-normalization function `clean_text` (emoji removal
followed by whitespace-run collapsing) is idempotent, for any emoji
predicate that does not classify the space character as an emoji. -/
theorem clean_text_idempotent (isEmoji : Char → Bool)
    (hsp : isEmoji ' ' = false) (s : String) :
    clean_text isEmoji (clean_text isEmoji s) = clean_text isEmoji s := by
  have h1 : ∀ c ∈ s.data.filter (fun c => !isEmoji c), isEmoji c = false := by
    intro c hc
    rw [List.mem_filter] at hc
    simpa using hc.2
  show String.mk (collapseWs false
      ((collapseWs false (s.data.filter (fun c => !isEmoji c))).filter
        (fun c => !isEmoji c))) =
    String.mk (collapseWs false (s.data.filter (fun c => !isEmoji c)))
  rw [filter_collapseWs isEmoji hsp _ h1 false,
    collapseWs_idem (s.data.filter (fun c => !isEmoji c)) false]

/-- Witness for C7 at a concrete emoji predicate and a concrete string. -/
theorem clean_text_idempotent_witness :
    sampleIsEmoji ' ' = false ∧
      clean_text sampleIsEmoji (clean_text sampleIsEmoji "nice\n\n  place 🙂  ") =
        clean_text sampleIsEmoji "nice\n\n  place 🙂  " :=
  ⟨by decide, clean_text_idempotent sampleIsEmoji (by decide) _⟩

theorem extractEntry_eq_resolve (isEmoji : Char → Bool) (pn : String)
    (e : Entry) (h : entryResolves e = true) :
    extractEntry isEmoji pn e = Except.ok (resolveEntry isEmoji pn e) := by
  rcases e with ⟨er, era, ed, eb⟩
  cases er with
  | error m => simp [entryResolves, Except.isOk, Except.toBool] at h
  | ok rev =>
    cases era with
    | error m => simp [entryResolves, Except.isOk, Except.toBool] at h
    | ok rat =>
      cases ed with
      | error m => simp [entryResolves, Except.isOk, Except.toBool] at h
      | ok dat =>
        cases eb with
        | ok s => rfl
        | timeout => rfl
        | err m => simp [entryResolves, Except.isOk, Except.toBool] at h

theorem extractEntry_error_of_bad (isEmoji : Char → Bool) (pn : String)
    (e : Entry) (h : entryResolves e = false) :
    ∃ m, extractEntry isEmoji pn e = Except.error m := by
  rcases e with ⟨er, era, ed, eb⟩
  cases er with
  | error m => exact ⟨m, rfl⟩
  | ok rev =>
    cases era with
    | error m => exact ⟨m, rfl⟩
    | ok rat =>
      cases ed with
      | error m => exact ⟨m, rfl⟩
      | ok dat =>
        cases eb with
        | ok s => simp [entryResolves, Except.isOk, Except.toBool] at h
        | timeout => simp [entryResolves, Except.isOk, Except.toBool] at h
        | err m => exact ⟨m, rfl⟩

theorem extractAll_eq_map (isEmoji : Char → Bool) (pn : String)
    (l : List Entry) (h : ∀ e ∈ l, entryResolves e = true) :
    extractAll isEmoji pn l = Except.ok (l.map (resolveEntry isEmoji pn)) := by
  induction l with
  | nil => rfl
  | cons e es ih =>
    have he := h e (List.mem_cons_self e es)
    have hes := fun x hx => h x (List.mem_cons_of_mem e hx)
    simp [extractAll, extractEntry_eq_resolve isEmoji pn e he, ih hes]

theorem extractAll_error_of_bad (isEmoji : Char → Bool) (pn : String)
    (l : List Entry) (h : ∃ e ∈ l, entryResolves e = false) :
    ∃ m, extractAll isEmoji pn l = Except.error m := by
  induction l with
  | nil => simp at h
  | cons e es ih =>
    obtain ⟨x, hx, hbad⟩ := h
    rcases List.mem_cons.mp hx with rfl | hx'
    · obtain ⟨m, hm⟩ := extractEntry_error_of_bad isEmoji pn x hbad
      exact ⟨m, by simp [extractAll, hm]⟩
    · cases hE : extractEntry isEmoji pn e with
      | error m => exact ⟨m, by simp [extractAll, hE]⟩
      | ok r =>
        obtain ⟨m, hm⟩ := ih ⟨x, hx', hbad⟩
        exact ⟨m, by simp [extractAll, hE, hm]⟩

theorem pySlice_subset {α : Type} (l : List α) (n : Int) : pySlice l n ⊆ l := by
  unfold pySlice
  by_cases h : 0 ≤ n
  · rw [if_pos h]; exact List.take_subset ..
  · rw [if_neg h]; exact List.take_subset ..

/-- Claim C2: for any `requestedCount ≥ 0` and rendered entries that all
resolve, extraction returns exactly `min(requestedCount, N)` records, and
the record list is the image, in rendering order, of the first
`min(requestedCount, N)` rendered containers. -/
theorem extract_length_and_order (isEmoji : Char → Bool) (pn : String)
    (entries : List Entry) (n : Int) (hn : 0 ≤ n)
    (hres : ∀ e ∈ entries, entryResolves e = true) :
    extractAll isEmoji pn (pySlice entries n) =
      Except.ok ((entries.take n.toNat).map (resolveEntry isEmoji pn)) ∧
    ((entries.take n.toNat).map (resolveEntry isEmoji pn)).length =
      min n.toNat entries.length := by
  have hslice : pySlice entries n = entries.take n.toNat := by
    unfold pySlice; rw [if_pos hn]
  constructor
  · rw [hslice]
    exact extractAll_eq_map isEmoji pn _
      (fun e he => hres e (List.take_subset _ _ he))
  · rw [List.length_map, List.length_take]

/-- Witness for C2 with two resolvable entries and requested count 1. -/
theorem extract_length_and_order_witness :
    extractAll sampleIsEmoji "Cafe" (pySlice [okEntry, timeoutEntry] 1) =
      Except.ok (([okEntry, timeoutEntry].take (1 : Int).toNat).map
        (resolveEntry sampleIsEmoji "Cafe")) ∧
    (([okEntry, timeoutEntry].take (1 : Int).toNat).map
        (resolveEntry sampleIsEmoji "Cafe")).length =
      min (1 : Int).toNat [okEntry, timeoutEntry].length :=
  extract_length_and_order sampleIsEmoji "Cafe" [okEntry, timeoutEntry] 1
    (by decide) (by decide)

theorem clean_text_no_review (isEmoji : Char → Bool)
    (hNo : ∀ c ∈ ("No review".data), isEmoji c = false) :
    clean_text isEmoji "No review" = "No review" := by
  unfold clean_text
  rw [List.filter_eq_self.mpr (fun c hc => by simp [hNo c hc])]
  decide

/-- Claim C4: if an entry's body read times out while its other reads (and
all reads of the other entries) resolve, extraction succeeds for every
entry and the timed-out entry's record carries the sentinel `"No review"`
as its review text. -/
theorem body_timeout_sentinel (isEmoji : Char → Bool) (pn : String)
    (entries : List Entry) (n : Int) (j : Nat)
    (hres : ∀ e ∈ entries, entryResolves e = true)
    (hj : j < (pySlice entries n).length)
    (hbody : ((pySlice entries n).get ⟨j, hj⟩).body = BodyRead.timeout)
    (hNo : ∀ c ∈ ("No review".data), isEmoji c = false) :
    ∃ recs, extractAll isEmoji pn (pySlice entries n) = Except.ok recs ∧
      recs.length = (pySlice entries n).length ∧
      ∃ r, recs[j]? = some r ∧ r.review = "No review" := by
  refine ⟨(pySlice entries n).map (resolveEntry isEmoji pn),
    extractAll_eq_map isEmoji pn _
      (fun e he => hres e (pySlice_subset entries n he)),
    by rw [List.length_map], ?_⟩
  refine ⟨resolveEntry isEmoji pn ((pySlice entries n).get ⟨j, hj⟩), ?_, ?_⟩
  · rw [List.getElem?_map, List.getElem?_eq_getElem hj]
    rfl
  · simp only [resolveEntry, hbody]
    exact clean_text_no_review isEmoji hNo

/-- Witness for C4: second entry of the sample environment times out. -/
theorem body_timeout_sentinel_witness :
    ∃ recs, extractAll sampleIsEmoji "Cafe"
        (pySlice [okEntry, timeoutEntry] 20) = Except.ok recs ∧
      recs.length = (pySlice [okEntry, timeoutEntry] 20).length ∧
      ∃ r, recs[1]? = some r ∧ r.review = "No review" :=
  body_timeout_sentinel sampleIsEmoji "Cafe" [okEntry, timeoutEntry] 20 1
    (by decide) (by decide) (by decide) (by decide)

/-- Claim C10: for a negative `num_reviews`, no scroll step is issued and
extraction yields the rendered entries with the last `|num_reviews|`
dropped, i.e. `max(N + num_reviews, 0)` records — not zero records and not
`min(num_reviews, N)`. -/
theorem negative_count_drops_from_end (isEmoji : Char → Bool) (pn : String)
    (entries : List Entry) (n : Int) (hn : n < 0)
    (hres : ∀ e ∈ entries, entryResolves e = true) :
    scrollStepsFor n = 0 ∧
    extractAll isEmoji pn (pySlice entries n) =
      Except.ok ((entries.take (entries.length - (-n).toNat)).map
        (resolveEntry isEmoji pn)) ∧
    ((entries.take (entries.length - (-n).toNat)).map
        (resolveEntry isEmoji pn)).length =
      ((entries.length : Int) + n).toNat := by
  have hslice : pySlice entries n = entries.take (entries.length - (-n).toNat) := by
    unfold pySlice; rw [if_neg (by omega)]
  refine ⟨?_, ?_, ?_⟩
  · unfold scrollStepsFor
    rw [if_neg (by omega)]
  · rw [hslice]
    exact extractAll_eq_map isEmoji pn _
      (fun e he => hres e (List.take_subset _ _ he))
  · rw [List.length_map, List.length_take]
    omega

/-- Witness for C10: three rendered entries, `num_reviews = -1`. -/
theorem negative_count_drops_from_end_witness :
    scrollStepsFor (-1) = 0 ∧
    extractAll sampleIsEmoji "Cafe"
        (pySlice [okEntry, timeoutEntry, okEntry] (-1)) =
      Except.ok (([okEntry, timeoutEntry, okEntry].take
          ([okEntry, timeoutEntry, okEntry].length - (-(-1 : Int)).toNat)).map
        (resolveEntry sampleIsEmoji "Cafe")) ∧
    (([okEntry, timeoutEntry, okEntry].take
          ([okEntry, timeoutEntry, okEntry].length - (-(-1 : Int)).toNat)).map
        (resolveEntry sampleIsEmoji "Cafe")).length =
      (([okEntry, timeoutEntry, okEntry].length : Int) + (-1)).toNat :=
  negative_count_drops_from_end sampleIsEmoji "Cafe"
    [okEntry, timeoutEntry, okEntry] (-1) (by decide) (by decide)

theorem removeNonAlnumRuns_eq_filter (l : List Char) :
    removeNonAlnumRuns l = l.filter isAsciiAlnum := by
  induction l with
  | nil => rfl
  | cons c cs ih =>
    by_cases hc : isAsciiAlnum c = true
    · simp [removeNonAlnumRuns, hc, List.filter, ih]
    · rw [Bool.not_eq_true] at hc
      simp [removeNonAlnumRuns, hc, List.filter, ih]

/-- Claim C8: the export path is the target directory joined with a stem
equal to `placeName` restricted to ASCII letters and digits, an underscore,
the current date, and the `.xlsx` extension; every stem character is an
ASCII letter or digit, and the stem for `"Joe's Café #1"` is `"JoesCaf1"`. -/
theorem export_filename_sanitization :
    (∀ place_name dir today : String,
      full_output_dir dir place_name today =
        dir ++ "/" ++ String.mk (place_name.data.filter isAsciiAlnum) ++ "_"
          ++ today ++ ".xlsx") ∧
    (∀ place_name : String,
      ∀ c ∈ (clean_place_name place_name).data, isAsciiAlnum c = true) ∧
    clean_place_name "Joe's Café #1" = "JoesCaf1" := by
  refine ⟨?_, ?_, by decide⟩
  · intro place_name dir today
    simp [full_output_dir, output_file_name, clean_place_name,
      removeNonAlnumRuns_eq_filter, String.append_assoc]
  · intro place_name c hc
    have : c ∈ place_name.data.filter isAsciiAlnum := by
      simpa [clean_place_name, removeNonAlnumRuns_eq_filter] using hc
    exact (List.mem_filter.mp this).2


/-- Claim C3: requesting export without a target directory short-circuits
before any page automation: the outcome is exactly the fixed guidance
message, with no navigation attempted and zero scroll steps. -/
theorem export_gating_short_circuit (isEmoji : Char → Bool) (args : Args)
    (env : Env) (hsave : args.save_reviews = true)
    (hfp : pyFalsy args.file_path = true) :
    get_reviews isEmoji args env =
      { result := Except.ok missingDirMessage, navigated := false,
        scrollSteps := 0 } := by
  simp [get_reviews, hsave, hfp]

/-- Witness for C3: export requested, no directory, in an environment whose
navigation would fail if it were attempted. -/
theorem export_gating_short_circuit_witness :
    get_reviews sampleIsEmoji { saveArgs with file_path := none } navFailEnv =
      { result := Except.ok missingDirMessage, navigated := false,
        scrollSteps := 0 } :=
  export_gating_short_circuit sampleIsEmoji
    { saveArgs with file_path := none } navFailEnv rfl rfl

/-- Claim C1 counterexample: a navigation failure escapes `get_reviews` as
an exception, because the `try` block begins only after `page.goto` — the
operation does not return a string on that path. -/
theorem get_reviews_raises_on_navigation_failure :
    (get_reviews sampleIsEmoji sampleArgs navFailEnv).result =
      Except.error "net::ERR_NAME_NOT_RESOLVED" := rfl

/-- Claim C1 (amended): once the pre-`try` phase (browser launch,
navigation, initial waits) has succeeded, every later failure is caught and
converted to a returned string. -/
theorem get_reviews_total_after_navigation (isEmoji : Char → Bool)
    (args : Args) (env : Env) (hnav : env.navResult = Except.ok ()) :
    ∃ s, (get_reviews isEmoji args env).result = Except.ok s := by
  unfold get_reviews
  by_cases hguard : (args.save_reviews && pyFalsy args.file_path) = true
  · rw [if_pos hguard]
    exact ⟨_, rfl⟩
  · rw [if_neg hguard, hnav]
    cases htab : env.tabClick with
    | error e => exact ⟨_, rfl⟩
    | ok u =>
      cases hsort : env.sortClick with
      | error e => exact ⟨_, rfl⟩
      | ok u2 =>
        cases hmenu : env.menuClick with
        | error e => exact ⟨_, rfl⟩
        | ok u3 =>
          cases hX : extractAll isEmoji args.place_name
              (pySlice env.entries args.num_reviews) with
          | error m => exact ⟨_, rfl⟩
          | ok recs =>
            cases hs : args.save_reviews with
            | false => exact ⟨_, rfl⟩
            | true =>
              cases hx : env.exportResult with
              | ok u4 => exact ⟨_, rfl⟩
              | error e => exact ⟨_, rfl⟩

/-- Witness for the amended C1: all-success environment. -/
theorem get_reviews_total_after_navigation_witness :
    ∃ s, (get_reviews sampleIsEmoji sampleArgs sampleEnvOk).result =
      Except.ok s :=
  get_reviews_total_after_navigation sampleIsEmoji sampleArgs sampleEnvOk rfl

/-- Claim C5: a per-entry field-read failure other than a body-read timeout
makes the whole collection abort: the operation returns the single
aggregate "unexpected error" message and surfaces no record list. -/
theorem field_failure_aborts_collection (isEmoji : Char → Bool) (args : Args)
    (env : Env)
    (hguard : (args.save_reviews && pyFalsy args.file_path) = false)
    (hnav : env.navResult = Except.ok ()) (htab : env.tabClick = Except.ok ())
    (hsort : env.sortClick = Except.ok ())
    (hmenu : env.menuClick = Except.ok ())
    (hbad : ∃ e ∈ pySlice env.entries args.num_reviews,
      entryResolves e = false) :
    ∃ m, (get_reviews isEmoji args env).result =
      Except.ok (unexpectedErrorMessage m) := by
  obtain ⟨m, hm⟩ := extractAll_error_of_bad isEmoji args.place_name _ hbad
  refine ⟨m, ?_⟩
  simp [get_reviews, hguard, hnav, htab, hsort, hmenu, hm]

/-- Witness for C5: an entry whose reviewer-name read raises. -/
theorem field_failure_aborts_collection_witness :
    ∃ m, (get_reviews sampleIsEmoji sampleArgs badEntryEnv).result =
      Except.ok (unexpectedErrorMessage m) :=
  field_failure_aborts_collection sampleIsEmoji sampleArgs badEntryEnv
    rfl rfl rfl rfl rfl (by decide)

theorem get_reviews_scrollSteps (isEmoji : Char → Bool) (args : Args)
    (env : Env)
    (hguard : (args.save_reviews && pyFalsy args.file_path) = false)
    (hnav : env.navResult = Except.ok ()) (htab : env.tabClick = Except.ok ())
    (hsort : env.sortClick = Except.ok ())
    (hmenu : env.menuClick = Except.ok ()) :
    (get_reviews isEmoji args env).scrollSteps =
      scrollStepsFor args.num_reviews := by
  unfold get_reviews
  rw [if_neg (by rw [hguard]; exact Bool.false_ne_true), hnav, htab, hsort,
    hmenu]
  cases hX : extractAll isEmoji args.place_name
      (pySlice env.entries args.num_reviews) with
  | error m => rfl
  | ok recs =>
    cases hs : args.save_reviews with
    | false => rfl
    | true =>
      cases hx : env.exportResult with
      | ok u => rfl
      | error e => rfl

/-- Claim C6: in a run that reaches the reveal phase, the number of issued
scroll-simulation steps is zero when `num_reviews ≤ 10` and exactly
`ceil(num_reviews / 10) - 1` when `num_reviews > 10`. -/
theorem scroll_step_count (isEmoji : Char → Bool) (args : Args) (env : Env)
    (hguard : (args.save_reviews && pyFalsy args.file_path) = false)
    (hnav : env.navResult = Except.ok ()) (htab : env.tabClick = Except.ok ())
    (hsort : env.sortClick = Except.ok ())
    (hmenu : env.menuClick = Except.ok ()) :
    (get_reviews isEmoji args env).scrollSteps =
      scrollStepsFor args.num_reviews ∧
    (args.num_reviews ≤ 10 → scrollStepsFor args.num_reviews = 0) ∧
    (10 < args.num_reviews →
      (scrollStepsFor args.num_reviews : Int) =
        pyCeil10 args.num_reviews - 1) := by
  refine ⟨get_reviews_scrollSteps isEmoji args env hguard hnav htab hsort
    hmenu, ?_, ?_⟩
  · intro h
    unfold scrollStepsFor
    rw [if_neg (by omega)]
  · intro h
    have h1 : (1 : ℚ) < (args.num_reviews : ℚ) / 10 := by
      rw [lt_div_iff₀ (by norm_num)]
      have h10 : (10 : ℚ) < (args.num_reviews : ℚ) := by exact_mod_cast h
      linarith
    have h2 : (1 : Int) < pyCeil10 args.num_reviews := by
      have hle := Int.le_ceil ((args.num_reviews : ℚ) / 10)
      have h3 : (1 : ℚ) < (⌈(args.num_reviews : ℚ) / 10⌉ : ℚ) :=
        lt_of_lt_of_le h1 hle
      unfold pyCeil10
      exact_mod_cast h3
    unfold scrollStepsFor
    rw [if_pos h, Int.toNat_of_nonneg (by omega)]

/-- Witness for C6 at the spec's two example counts, 25 and 8. -/
theorem scroll_step_count_witness :
    ((get_reviews sampleIsEmoji { sampleArgs with num_reviews := 25 }
        sampleEnvOk).scrollSteps = scrollStepsFor 25 ∧
      ((25 : Int) ≤ 10 → scrollStepsFor 25 = 0) ∧
      ((10 : Int) < 25 → (scrollStepsFor 25 : Int) = pyCeil10 25 - 1)) ∧
    ((get_reviews sampleIsEmoji { sampleArgs with num_reviews := 8 }
        sampleEnvOk).scrollSteps = scrollStepsFor 8 ∧
      ((8 : Int) ≤ 10 → scrollStepsFor 8 = 0) ∧
      ((10 : Int) < 8 → (scrollStepsFor 8 : Int) = pyCeil10 8 - 1)) :=
  ⟨scroll_step_count sampleIsEmoji { sampleArgs with num_reviews := 25 }
      sampleEnvOk rfl rfl rfl rfl rfl,
    scroll_step_count sampleIsEmoji { sampleArgs with num_reviews := 8 }
      sampleEnvOk rfl rfl rfl rfl rfl⟩

/-- Claim C9: when the export step fails after successful collection, the
operation still returns the full tool message (preamble plus every
formatted review), prefixed with the export-failure explanation. -/
theorem export_failure_keeps_reviews (isEmoji : Char → Bool) (args : Args)
    (env : Env) (p err : String)
    (hsave : args.save_reviews = true) (hfp : args.file_path = some p)
    (hp : p.isEmpty = false)
    (hnav : env.navResult = Except.ok ()) (htab : env.tabClick = Except.ok ())
    (hsort : env.sortClick = Except.ok ())
    (hmenu : env.menuClick = Except.ok ())
    (hres : ∀ e ∈ env.entries, entryResolves e = true)
    (hexp : env.exportResult = Except.error err) :
    (get_reviews isEmoji args env).result =
      Except.ok (exportErrorMessage err ++
        toolMessage ((pySlice env.entries args.num_reviews).map
          (resolveEntry isEmoji args.place_name))) := by
  have hmap := extractAll_eq_map isEmoji args.place_name
    (pySlice env.entries args.num_reviews)
    (fun e he => hres e (pySlice_subset env.entries args.num_reviews he))
  simp [get_reviews, hsave, hfp, hp, pyFalsy, hnav, htab, hsort, hmenu,
    hmap, hexp]

/-- Witness for C9: unwritable path, two collected reviews. -/
theorem export_failure_keeps_reviews_witness :
    (get_reviews sampleIsEmoji saveArgs exportFailEnv).result =
      Except.ok (exportErrorMessage "Permission denied" ++
        toolMessage ((pySlice exportFailEnv.entries saveArgs.num_reviews).map
          (resolveEntry sampleIsEmoji saveArgs.place_name))) :=
  export_failure_keeps_reviews sampleIsEmoji saveArgs exportFailEnv
    "/home/user/out" "Permission denied" rfl rfl rfl rfl rfl rfl rfl
    (by decide) rfl

/-- Witness for C8: concrete directory, place name and date. -/
theorem export_filename_sanitization_witness :
    full_output_dir "/home/user/out" "Joe's Café #1" "20261012" =
      "/home/user/out" ++ "/" ++
        String.mk (("Joe's Café #1" : String).data.filter isAsciiAlnum) ++
        "_" ++ "20261012" ++ ".xlsx" :=
  export_filename_sanitization.1 "Joe's Café #1" "/home/user/out" "20261012"

end GmapsReviews
